import Mathlib

/-!
# Verification of the pairing/fallback orchestration engine

Shallow embedding of the decision logic of `src/src/Whatsapp/fallback-handler.js`
(the `FallbackHandler` and `PairingStrategies` classes), together with proofs
of the specification's testable properties.

Conventions of the embedding:
* JavaScript objects holding per-key mutable cache state (`node-cache`) are
  modelled as total or optional maps inside an explicit state record; a cache
  `get` that can be expired-or-missing is modelled as `Option` lookup.
* Machine integers are `Nat`/`Int`; JS string operations are modelled over
  `List Char`.
* Cosmetic payload fields (human-readable `message`, `instructions`,
  `description`, statistics counters, console logging and simulated delays)
  are elided; every field with decision-relevant content is kept.
-/

namespace FallbackEngine

/-- Stable insertion sort keyed by a `Nat`-valued key, embedding the
JavaScript `array.sort((a, b) => a.key - b.key)` calls (JS `sort` is stable;
this insertion sort keeps an earlier element before a later one whenever their
keys are equal, which is the same order). -/
def insertByKey (key : α → Nat) (x : α) : List α → List α
  | [] => [x]
  | y :: ys => if key y ≤ key x then y :: insertByKey key x ys else x :: y :: ys

/-- Sort a list ascending by `key`, stably. -/
def sortByKey (key : α → Nat) : List α → List α
  | [] => []
  | x :: xs => insertByKey key x (sortByKey key xs)

theorem mem_insertByKey {key : α → Nat} {x a : α} {l : List α} :
    a ∈ insertByKey key x l ↔ a = x ∨ a ∈ l := by
  induction l with
  | nil => simp [insertByKey]
  | cons y ys ih =>
    simp only [insertByKey]
    split
    · simp [List.mem_cons, ih]
      tauto
    · simp [List.mem_cons]

theorem mem_sortByKey {key : α → Nat} {a : α} {l : List α} :
    a ∈ sortByKey key l ↔ a ∈ l := by
  induction l with
  | nil => simp [sortByKey]
  | cons x xs ih => simp [sortByKey, mem_insertByKey, ih]

theorem insertByKey_ne_nil {key : α → Nat} {x : α} {l : List α} :
    insertByKey key x l ≠ [] := by
  cases l with
  | nil => simp [insertByKey]
  | cons y ys => simp only [insertByKey]; split <;> simp

theorem sortByKey_eq_nil {key : α → Nat} {l : List α} :
    sortByKey key l = [] ↔ l = [] := by
  cases l with
  | nil => simp [sortByKey]
  | cons x xs => simp [sortByKey, insertByKey_ne_nil]

theorem pairwise_insertByKey {key : α → Nat} {x : α} {l : List α}
    (h : l.Pairwise (fun a b => key a ≤ key b)) :
    (insertByKey key x l).Pairwise (fun a b => key a ≤ key b) := by
  induction l with
  | nil => simp [insertByKey]
  | cons y ys ih =>
    rcases List.pairwise_cons.mp h with ⟨hy, hys⟩
    simp only [insertByKey]
    split
    · rename_i hle
      refine List.pairwise_cons.mpr ⟨?_, ih hys⟩
      intro z hz
      rcases mem_insertByKey.mp hz with rfl | hz
      · exact hle
      · exact hy z hz
    · rename_i hlt
      refine List.pairwise_cons.mpr ⟨?_, h⟩
      intro z hz
      rcases List.mem_cons.mp hz with rfl | hz
      · omega
      · exact le_trans (by omega) (hy z hz)

theorem pairwise_sortByKey {key : α → Nat} {l : List α} :
    (sortByKey key l).Pairwise (fun a b => key a ≤ key b) := by
  induction l with
  | nil => simp [sortByKey]
  | cons x xs ih => exact pairwise_insertByKey ih

/-- The head of the sorted list is a member of minimal key. -/
theorem head_sortByKey_min {key : α → Nat} {l r : List α} {x : α}
    (h : sortByKey key l = x :: r) :
    x ∈ l ∧ ∀ y ∈ l, key x ≤ key y := by
  have hx : x ∈ l := mem_sortByKey.mp (h ▸ List.mem_cons_self x r)
  refine ⟨hx, fun y hy => ?_⟩
  have hy' : y ∈ x :: r := h ▸ mem_sortByKey.mpr hy
  rcases List.mem_cons.mp hy' with rfl | hy'
  · exact le_refl _
  · have hp := @pairwise_sortByKey α key l
    rw [h] at hp
    exact (List.pairwise_cons.mp hp).1 y hy'

/-! ## Failure Classifier (`FallbackHandler.analyzeError` / `classifyError`) -/

/-- The four severity strings of the source, in their documented order. -/
inductive Severity where
  | low
  | medium
  | high
  | critical
deriving DecidableEq, Repr

/-- Numeric rank of a severity (low < medium < high < critical). -/
def Severity.rank : Severity → Nat
  | .low => 0
  | .medium => 1
  | .high => 2
  | .critical => 3

/-- A JavaScript severity value.  In the source `analysis.severity` starts as
one of the four strings, but the escalation steps assign
`Math.max(analysis.severity, 'medium')` / `Math.max(analysis.severity, 'high')`,
and `Math.max` coerces its arguments to numbers: every severity string coerces
to `NaN`, so the result of either escalation assignment is the number `NaN`,
not a severity string.  `nan` models that value. -/
inductive JSSev where
  | sev (s : Severity)
  | nan
deriving DecidableEq, Repr

/-- `Math.max(a, b)` as used at fallback-handler.js lines 227 and 232: the
second argument is always one of the severity strings (`'medium'`/`'high'`),
which coerces to `NaN`, and `Math.max(x, NaN) = NaN` for every `x`. -/
def jsMaxSeverity (_a _b : JSSev) : JSSev := JSSev.nan

/-- `s` is a genuine severity at least `m`; the JS `NaN` severity compares
false against everything (as NaN does in JS). -/
def JSSev.atLeast : JSSev → Severity → Prop
  | .sev s, m => m.rank ≤ s.rank
  | .nan, _ => False

instance (s : JSSev) (m : Severity) : Decidable (s.atLeast m) := by
  cases s <;> simp only [JSSev.atLeast] <;> infer_instance

/-- `needle` occurs as a contiguous sublist of `haystack`. -/
def hasSubstr (needle : List Char) : List Char → Bool
  | [] => needle.isEmpty
  | h :: t => needle.isPrefixOf (h :: t) || hasSubstr needle t

/-- JavaScript `haystack.includes(needle)` (substring containment). -/
def jsIncludes (haystack needle : String) : Bool :=
  hasSubstr needle.toList haystack.toList

/-- The result of `analyzeError` (the ephemeral Failure Analysis value).
The advisory `suggestions` strings and `metadata` are elided. -/
structure Analysis where
  errorType : String
  severity : JSSev
  conditions : List String
deriving DecidableEq, Repr

/-- `context` argument of `analyzeError` (only the two fields the function
reads). -/
structure Context where
  attempts : Int
  timeSinceStart : Int
deriving DecidableEq, Repr

/-- The `errorPatterns` table of `classifyError`, in object-insertion order. -/
def errorPatterns : List (String × List String) :=
  [("expired", ["expired", "timeout", "old", "stale"]),
   ("invalid", ["invalid", "wrong", "incorrect", "mismatch"]),
   ("rate_limited", ["rate limit", "too many", "attempts", "wait"]),
   ("network", ["connection", "network", "timeout", "offline", "unreachable"]),
   ("server", ["server", "internal", "500", "503", "service"]),
   ("device", ["device", "phone", "sim", "number"]),
   ("permanent", ["blocked", "banned", "suspended", "terminated"])]

/-- `FallbackHandler.classifyError`: first pattern set with a matching
(case-insensitively, via lowercasing) substring wins, else `"unknown"`. -/
def classifyError (error : String) : String :=
  let errorStr := error.toLower
  match errorPatterns.find? (fun p => p.2.any (fun pat => jsIncludes errorStr pat)) with
  | some p => p.1
  | none => "unknown"

/-- `FallbackHandler.analyzeError`: classify the raw error text, then run the
five keyword checks (each overwriting `errorType`/`severity` and appending its
condition tags), then the two context-based escalation steps (which append a
tag and assign `Math.max(severity, 'medium'|'high')`, i.e. `NaN`). -/
def analyzeError (error : String) (context : Context) : Analysis :=
  let a : Analysis := { errorType := classifyError error, severity := .sev .low, conditions := [] }
  let a := if jsIncludes error "expired" || jsIncludes error "timeout" then
      { a with errorType := "expired", severity := .sev .medium,
               conditions := a.conditions ++ ["code_expired", "session_stale"] } else a
  let a := if jsIncludes error "invalid" || jsIncludes error "wrong" then
      { a with errorType := "invalid", severity := .sev .low,
               conditions := a.conditions ++ ["code_failed"] } else a
  let a := if jsIncludes error "rate limit" || jsIncludes error "too many" then
      { a with errorType := "rate_limited", severity := .sev .high,
               conditions := a.conditions ++ ["rate_limited"] } else a
  let a := if jsIncludes error "connection" || jsIncludes error "network" then
      { a with errorType := "network", severity := .sev .high,
               conditions := a.conditions ++ ["connection_timeout", "server_issues"] } else a
  let a := if jsIncludes error "all methods" || jsIncludes error "failed" then
      { a with errorType := "persistent", severity := .sev .critical,
               conditions := a.conditions ++ ["all_failed", "persistent_errors"] } else a
  let a := if context.attempts > 3 then
      { a with conditions := a.conditions ++ ["multiple_attempts"],
               severity := jsMaxSeverity a.severity (.sev .medium) } else a
  let a := if context.timeSinceStart > 300000 then
      { a with conditions := a.conditions ++ ["prolonged_issue"],
               severity := jsMaxSeverity a.severity (.sev .high) } else a
  a

/-! ## Fallback Selector (`FallbackHandler.selectStrategy` and its catalog) -/

/-- One static catalog entry of `this.fallbacks` (`name`/`description`
elided).  `conditions`/`requires` are `Option` because automatic and emergency
descriptors carry only `conditions` while manual descriptors carry only
`requires` (the other field is `undefined` in the source objects). -/
structure Descriptor where
  id : String
  priority : Nat
  enabled : Bool
  conditions : Option (List String)
  requires : Option (List String)
  action : String
deriving DecidableEq, Repr

def methodRotationD : Descriptor :=
  { id := "method_rotation", priority := 1, enabled := true,
    conditions := some ["code_failed", "sms_failed", "call_failed"],
    requires := none, action := "rotate_method" }

def codeRegenerationD : Descriptor :=
  { id := "code_regeneration", priority := 2, enabled := true,
    conditions := some ["code_expired"],
    requires := none, action := "regenerate_code" }

def sessionRefreshD : Descriptor :=
  { id := "session_refresh", priority := 3, enabled := true,
    conditions := some ["session_stale", "connection_timeout"],
    requires := none, action := "refresh_session" }

def backupCodesD : Descriptor :=
  { id := "backup_codes", priority := 4, enabled := true,
    conditions := none, requires := some ["backup_code"], action := "use_backup" }

def alternativeAuthD : Descriptor :=
  { id := "alternative_auth", priority := 5, enabled := true,
    conditions := none, requires := some ["email_access", "2fa_enabled"],
    action := "alternative_auth" }

def supportInterventionD : Descriptor :=
  { id := "support_intervention", priority := 6, enabled := true,
    conditions := none, requires := some ["support_available"],
    action := "contact_support" }

def newSessionD : Descriptor :=
  { id := "new_session", priority := 7, enabled := true,
    conditions := some ["all_failed", "persistent_errors"],
    requires := none, action := "create_new_session" }

def deviceSwitchD : Descriptor :=
  { id := "device_switch", priority := 8, enabled := true,
    conditions := some ["device_issues"],
    requires := none, action := "switch_device" }

def timeDelayD : Descriptor :=
  { id := "time_delay", priority := 9, enabled := true,
    conditions := some ["rate_limited", "server_issues"],
    requires := none, action := "delayed_retry" }

/-- `this.fallbacks.automatic`. -/
def automaticFallbacks : List Descriptor :=
  [methodRotationD, codeRegenerationD, sessionRefreshD]

/-- `this.fallbacks.manual`. -/
def manualFallbacks : List Descriptor :=
  [backupCodesD, alternativeAuthD, supportInterventionD]

/-- `this.fallbacks.emergency`. -/
def emergencyFallbacks : List Descriptor :=
  [newSessionD, deviceSwitchD, timeDelayD]

/-- `FallbackHandler.matchesConditions`: an absent or empty condition list
matches everything, otherwise any overlap with the analysis conditions
qualifies. -/
def matchesConditions (strategyConditions : Option (List String))
    (errorConditions : List String) : Bool :=
  match strategyConditions with
  | none => true
  | some scs => scs.isEmpty || scs.any (fun c => errorConditions.contains c)

/-- `FallbackHandler.meetsRequirements`: the source stubs prerequisite
checking and unconditionally reports every requirement as satisfied. -/
def meetsRequirements (_requirements : Option (List String)) (_a : Analysis) : Bool :=
  true

/-- A candidate strategy as pushed by `selectStrategy` (descriptor plus its
tier tag). -/
structure Selected where
  desc : Descriptor
  type : String
deriving DecidableEq, Repr

/-- The candidate list built by `selectStrategy`'s three loops, in push
order: matching automatic descriptors; all manual descriptors whose
requirements are met when severity is `'high'` or `'critical'`; matching
emergency descriptors when severity is `'critical'`. -/
def selectCandidates (a : Analysis) : List Selected :=
  ((automaticFallbacks.filter
      (fun f => matchesConditions f.conditions a.conditions)).map
      (fun f => ⟨f, "automatic"⟩))
  ++ (if a.severity = JSSev.sev .high ∨ a.severity = JSSev.sev .critical then
        (manualFallbacks.filter (fun f => meetsRequirements f.requires a)).map
          (fun f => ⟨f, "manual"⟩)
      else [])
  ++ (if a.severity = JSSev.sev .critical then
        (emergencyFallbacks.filter
            (fun f => matchesConditions f.conditions a.conditions)).map
          (fun f => ⟨f, "emergency"⟩)
      else [])

/-- `FallbackHandler.selectStrategy`: sort the candidates ascending by
priority and return the first, or `null` when there is none. -/
def selectStrategy (a : Analysis) : Option Selected :=
  (sortByKey (fun s => s.desc.priority) (selectCandidates a)).head?

/-! ## Fallback Executor and Critical Escalation
(`FallbackHandler.handleFallback` / `handleCriticalFallback`) -/

/-- Result of executing a selected strategy.  The nine action routines of the
source (`rotateMethod` … `delayedRetry`) all unconditionally return
`success: true` with advisory payloads; the executor logic only inspects
`success`, so the payloads are elided and execution outcomes are passed in as
a function so that the executor's failure branches can be stated. -/
structure ExecResult where
  success : Bool
deriving DecidableEq, Repr

/-- `FallbackHandler.executeStrategy` as written in the source: every
dispatched action routine returns `success: true`. -/
def executeStrategy (_strategy : Selected) : ExecResult := { success := true }

/-- The three emergency actions of `handleCriticalFallback`, tagged. -/
inductive EscAction where
  | forceNewSession
  | supportEscalation
  | systemReset
deriving DecidableEq, Repr

/-- The `priority` field of each emergency action object. -/
def escPriority : EscAction → Nat
  | .forceNewSession => 1
  | .supportEscalation => 2
  | .systemReset => 3

/-- The `emergencyActions` array, in construction order. -/
def emergencyActions : List EscAction :=
  [.forceNewSession, .supportEscalation, .systemReset]

/-- Result of one emergency action; a thrown exception is modelled as
`success = false` (the source catches it and continues). -/
structure EscResult where
  success : Bool
deriving DecidableEq, Repr

/-- The static support-contact payload of the terminal `CRITICAL_FAILURE`
result. -/
structure SupportContact where
  email : String
  phone : String
  liveChat : String
deriving DecidableEq, Repr

def staticSupportContact : SupportContact :=
  { email := "support@abdullah-md.com",
    phone := "+1-800-HELP-NOW",
    liveChat := "https://abdullah-md.com/support" }

/-- Outcome of `handleCriticalFallback`: either the first successful
emergency action (with its result), or the terminal `CRITICAL_FAILURE`
carrying the static support contact. -/
inductive CriticalOutcome where
  | resolved (action : EscAction) (result : EscResult)
  | exhausted (supportContact : SupportContact)
deriving DecidableEq, Repr

/-- The `for … of` loop of `handleCriticalFallback`: try each action in
order, return on the first success. -/
def tryEmergencyActions (escExec : EscAction → EscResult) :
    List EscAction → CriticalOutcome
  | [] => .exhausted staticSupportContact
  | a :: rest =>
    if (escExec a).success then .resolved a (escExec a)
    else tryEmergencyActions escExec rest

/-- `FallbackHandler.handleCriticalFallback`, parameterized by the outcomes
of the three emergency service calls. -/
def handleCriticalFallback (escExec : EscAction → EscResult) : CriticalOutcome :=
  tryEmergencyActions escExec (sortByKey escPriority emergencyActions)

/-- Outcome of `handleFallback`: no strategy found (`NO_FALLBACK_AVAILABLE`),
a normal strategy execution (successful or not), or the result of the
critical-escalation path. -/
inductive FallbackOutcome where
  | noFallback
  | normal (strategy : Selected) (result : ExecResult)
  | escalated (c : CriticalOutcome)
deriving DecidableEq, Repr

/-- `FallbackHandler.handleFallback`, parameterized by strategy-execution
outcomes (`exec`, which in the source is always `executeStrategy`) and by the
emergency-action outcomes (`escExec`): analyze the error, select a strategy
(`NO_FALLBACK_AVAILABLE` if none), execute it, and on a failed execution with
critical severity delegate to `handleCriticalFallback`. -/
def handleFallback (exec : Selected → ExecResult) (escExec : EscAction → EscResult)
    (error : String) (context : Context) : FallbackOutcome :=
  let analysis := analyzeError error context
  match selectStrategy analysis with
  | none => .noFallback
  | some strategy =>
    let result := exec strategy
    if result.success then .normal strategy result
    else if analysis.severity = JSSev.sev .critical then
      .escalated (handleCriticalFallback escExec)
    else .normal strategy result

/-! ### The eligible-candidate set as the specification words it -/

/-- The descriptor's condition tags intersect the analysis conditions. -/
def condsIntersect (oc : Option (List String)) (errorConditions : List String) : Bool :=
  (oc.getD []).any (fun c => errorConditions.contains c)

/-- The eligible candidates as the specification describes them: automatic
descriptors with intersecting conditions; all manual descriptors (requires
treated as satisfied) exactly when severity is high or critical; emergency
descriptors with intersecting conditions exactly when severity is critical. -/
def eligibleSpec (a : Analysis) : List Selected :=
  ((automaticFallbacks.filter
      (fun f => condsIntersect f.conditions a.conditions)).map
      (fun f => ⟨f, "automatic"⟩))
  ++ (if a.severity = JSSev.sev .high ∨ a.severity = JSSev.sev .critical then
        manualFallbacks.map (fun f => ⟨f, "manual"⟩)
      else [])
  ++ (if a.severity = JSSev.sev .critical then
        (emergencyFallbacks.filter
            (fun f => condsIntersect f.conditions a.conditions)).map
          (fun f => ⟨f, "emergency"⟩)
      else [])

/-- All nine tier-tagged descriptors of the catalog. -/
def allSelected : List Selected :=
  (automaticFallbacks.map (fun f => ⟨f, "automatic"⟩))
  ++ (manualFallbacks.map (fun f => ⟨f, "manual"⟩))
  ++ (emergencyFallbacks.map (fun f => ⟨f, "emergency"⟩))

/-! ## Channel Strategies (`PairingStrategies`)

The `PairingStrategies` class keeps its mutable per-key state in one
`node-cache` instance under four disjoint key prefixes
(`pairing_{sessionId}_{method}`, `attempts_{sessionId}_{method}`,
`backup_{sessionId}`, `rate_{phone}_{method}`); the state record below gives
each prefix its own map.  A cache `get` that finds no live (non-expired)
entry yields `none`; for the attempt counter the source reads
`cache.get(key) || 0`, so it is modelled as a total map defaulting to 0. -/

/-- One entry of the `this.strategies` catalog (`name`, `description`,
`requires` and `generates` are descriptive only and elided; `enabled`,
`priority` and `timeout` are the fields the logic reads). -/
structure ChannelStrategy where
  enabled : Bool
  priority : Nat
  timeout : Nat
deriving DecidableEq, Repr

/-- `this.strategies`, in object-insertion order. -/
def strategyList : List (String × ChannelStrategy) :=
  [("code", { enabled := true, priority := 1, timeout := 600 }),
   ("sms", { enabled := true, priority := 2, timeout := 300 }),
   ("call", { enabled := true, priority := 3, timeout := 300 }),
   ("email", { enabled := true, priority := 4, timeout := 600 }),
   ("backup", { enabled := true, priority := 5, timeout := 0 })]

/-- `this.strategies[method]` (`undefined` for unknown methods). -/
def getStrategy (method : String) : Option ChannelStrategy :=
  (strategyList.find? (fun p => p.1 == method)).map (fun p => p.2)

/-- The priority of a method (`0` for unknown methods, which never compares
greater than any catalog priority — mirroring the JS
`config.priority > undefined` being false). -/
def prioOf (method : String) : Nat :=
  (getStrategy method).elim 0 (fun s => s.priority)

/-- `PairingStrategies.getAlternativeMethods`: the enabled methods other than
`currentMethod` with strictly greater priority, sorted ascending by
priority. -/
def getAlternativeMethods (currentMethod : String) : List String :=
  (sortByKey (fun p => p.2.priority)
    (strategyList.filter (fun p =>
      p.1 != currentMethod && p.2.enabled &&
        (match getStrategy currentMethod with
         | some s => decide (s.priority < p.2.priority)
         | none => false)))).map (fun p => p.1)

/-- The stored pairing credential (`generatedAt`/`expiresAt` timestamps are
elided: liveness is modelled by presence in the map, exactly what
`cache.get` observes). -/
structure PairingData where
  code : String
  phone : String
deriving DecidableEq, Repr

/-- The mutable state of a `PairingStrategies` instance (statistics counters
elided). -/
structure PSState where
  /-- `pairing_{sessionId}_{method}` entries, keyed by `(sessionId, method)`. -/
  pairing : String × String → Option PairingData
  /-- `attempts_{sessionId}_{method}` entries (`cache.get(...) || 0`). -/
  attempts : String × String → Nat
  /-- `backup_{sessionId}` entries written by `storeBackupCode`. -/
  backups : String → Option String
  /-- `rate_{phone}_{method}` entries: counter value and absolute expiry
  timestamp in milliseconds. -/
  rate : String × String → Option (Nat × Int)

/-- `PairingStrategies.getAttemptsLeft`: read the attempt counter, report
`max(0, 3 - attempts)` and — only while that is still positive — store the
incremented counter. -/
def getAttemptsLeft (st : PSState) (sessionId method : String) : Int × PSState :=
  let attempts := st.attempts (sessionId, method)
  let maxAttempts : Int := 3
  let attemptsLeft : Int := maxAttempts - attempts
  if attemptsLeft > 0 then
    (max 0 attemptsLeft,
     { st with attempts := fun k =>
         if k = (sessionId, method) then attempts + 1 else st.attempts k })
  else
    (max 0 attemptsLeft, st)

/-- JavaScript `code.replace(/\D/g, '')`: keep only the decimal digits. -/
def normalize (code : String) : String :=
  String.mk (code.toList.filter Char.isDigit)

/-- Result object of `verifyPairingCode` (`message` elided). -/
structure VResult where
  success : Bool
  error : Option String := none
  attemptsLeft : Option Int := none
  phone : Option String := none
deriving DecidableEq, Repr

/-- `PairingStrategies.verifyPairingCode`: missing/expired credential fails
with `CODE_EXPIRED` before any comparison; a mismatch (after stripping
non-digits from both sides) fails with `INVALID_CODE` and ticks the attempt
counter; a match deletes the credential and succeeds. -/
def verifyPairingCode (st : PSState) (sessionId code method : String) :
    VResult × PSState :=
  match st.pairing (sessionId, method) with
  | none => ({ success := false, error := some "CODE_EXPIRED" }, st)
  | some pairingData =>
    if normalize code ≠ normalize pairingData.code then
      let r := getAttemptsLeft st sessionId method
      ({ success := false, error := some "INVALID_CODE", attemptsLeft := some r.1 },
       r.2)
    else
      ({ success := true, phone := some pairingData.phone },
       { st with pairing := fun k =>
           if k = (sessionId, method) then none else st.pairing k })

/-- Outcomes of the per-channel generators, supplied externally: `some code`
when the channel's generator produces a code, `none` when it throws
(provider not configured / delivery failed — the spec's `ChannelUnavailable`
and `DeliveryFailed`). -/
structure GenEnv where
  genOutcome : String → Option String

/-- Result object of `generatePairingCode` / `tryFallbackMethod`
(`formattedCode`, `instructions` and `message` elided). -/
structure GenResult where
  success : Bool
  method : Option String := none
  code : Option String := none
  expiresIn : Option Nat := none
  alternatives : List String := []
  error : Option String := none
  fallback : Bool := false
  originalMethod : Option String := none
  triedFallbacks : List String := []
deriving DecidableEq, Repr

/-- Every alternative of a method has strictly greater priority, and catalog
priorities are at most 5 (used as the termination measure of the fallback
chain). -/
theorem prioOf_alt {currentMethod m : String}
    (hm : m ∈ getAlternativeMethods currentMethod) :
    prioOf currentMethod < prioOf m ∧ prioOf m ≤ 5 := by
  rcases List.mem_map.mp hm with ⟨p, hp, rfl⟩
  have hp' := mem_sortByKey.mp hp
  have hmem := List.mem_of_mem_filter hp'
  have hpred := List.of_mem_filter hp'
  have hstrat : getStrategy p.1 = some p.2 := by
    fin_cases hmem <;> rfl
  simp only [Bool.and_eq_true, bne_iff_ne, ne_eq, decide_eq_true_eq] at hpred
  rcases hpred with ⟨⟨_hne, _hen⟩, hgt⟩
  rcases hc : getStrategy currentMethod with _ | s
  · rw [hc] at hgt; exact absurd hgt (by simp)
  · rw [hc] at hgt
    have hlt : s.priority < p.2.priority := by
      simpa using hgt
    have hle : p.2.priority ≤ 5 := by
      fin_cases hmem <;> simp
    constructor
    · simp [prioOf, hc, hstrat, Option.elim]
      exact hlt
    · simp [prioOf, hstrat, Option.elim]
      exact hle

mutual

/-- `PairingStrategies.generatePairingCode`: an unknown or disabled method,
or a generator that throws, is caught and routed to `tryFallbackMethod`;
otherwise the generated code overwrites the credential entry for
`(sessionId, method)` (and, for the backup channel, is also persisted by
`storeBackupCode`) and a success result is returned. -/
def generatePairingCode (env : GenEnv) (st : PSState)
    (phone sessionId method : String) : GenResult × PSState :=
  match getStrategy method with
  | none => tryFallbackMethod env st phone sessionId method
  | some strategy =>
    if strategy.enabled then
      match env.genOutcome method with
      | none => tryFallbackMethod env st phone sessionId method
      | some code =>
        let st1 :=
          if method = "backup" then
            { st with backups := fun s =>
                if s = sessionId then some code else st.backups s }
          else st
        ({ success := true, method := some method, code := some code,
           expiresIn := some strategy.timeout,
           alternatives := getAlternativeMethods method },
         { st1 with pairing := fun k =>
             if k = (sessionId, method) then some ⟨code, phone⟩
             else st1.pairing k })
    else tryFallbackMethod env st phone sessionId method
termination_by (6 - prioOf method, 2, 0)

/-- `PairingStrategies.tryFallbackMethod`: walk the alternatives of the
failed method in priority order. -/
def tryFallbackMethod (env : GenEnv) (st : PSState)
    (phone sessionId failedMethod : String) : GenResult × PSState :=
  tryAlternatives env st phone sessionId failedMethod
    (getAlternativeMethods failedMethod)
    (fun m hm => prioOf_alt hm)
termination_by (6 - prioOf failedMethod, 1, 0)

/-- The `for … of alternatives` loop of `tryFallbackMethod`: generate on each
alternative in turn; the first success is returned with `fallback: true` and
`originalMethod` set to the failed method; exhaustion yields the terminal
`ALL_METHODS_FAILED` result.  (The membership hypothesis `h` records that
alternatives have strictly greater priority; it only serves termination.) -/
def tryAlternatives (env : GenEnv) (st : PSState)
    (phone sessionId failedMethod : String) (ms : List String)
    (h : ∀ m ∈ ms, prioOf failedMethod < prioOf m ∧ prioOf m ≤ 5) :
    GenResult × PSState :=
  match ms with
  | [] =>
    ({ success := false, error := some "ALL_METHODS_FAILED",
       originalMethod := some failedMethod,
       triedFallbacks := getAlternativeMethods failedMethod }, st)
  | m :: rest =>
    let r := generatePairingCode env st phone sessionId m
    if r.1.success then
      ({ r.1 with fallback := true, originalMethod := some failedMethod }, r.2)
    else
      tryAlternatives env r.2 phone sessionId failedMethod rest
        (fun x hx => h x (List.mem_cons_of_mem m hx))
termination_by (6 - prioOf failedMethod, 0, ms.length)
decreasing_by
  all_goals
    first
      | decreasing_tactic
      | (obtain ⟨h2, h3⟩ := h m (List.mem_cons_self m rest)
         simp_wf
         apply Prod.Lex.left
         omega)

end

/-- `allowed`/`reason`/`retryAfter` fields of `canAttemptPairing`'s result
(`message` elided). -/
structure RateResult where
  allowed : Bool
  reason : Option String := none
  retryAfter : Option Int := none
deriving DecidableEq, Repr

/-- A live rate-counter read at wall-clock `now`: `node-cache` discards an
entry whose expiry timestamp lies strictly in the past. -/
def rateGet (st : PSState) (key : String × String) (now : Int) :
    Option (Nat × Int) :=
  match st.rate key with
  | some (v, expiry) => if expiry < now then none else some (v, expiry)
  | none => none

/-- JavaScript `Math.ceil(a / b)` for integers (`b > 0`): ceiling
division. -/
def jsCeilDiv (a b : Int) : Int := -((-a).ediv b)

/-- `PairingStrategies.canAttemptPairing`: with 5 or more recorded attempts
in the live window the call is rejected with `RATE_LIMITED` and a
retry-after of `ceil((ttl - now) / 60000)` minutes; otherwise the counter is
stored incremented with a fresh 300-second window. -/
def canAttemptPairing (st : PSState) (phone method : String) (now : Int) :
    RateResult × PSState :=
  let attempts := (rateGet st (phone, method) now).elim 0 (fun p => p.1)
  if attempts ≥ 5 then
    let ttl := (rateGet st (phone, method) now).elim 0 (fun p => p.2)
    let timeLeft := jsCeilDiv (ttl - now) 60000
    ({ allowed := false, reason := some "RATE_LIMITED",
       retryAfter := some timeLeft }, st)
  else
    ({ allowed := true },
     { st with rate := fun k =>
         if k = (phone, method) then some (attempts + 1, now + 300 * 1000)
         else st.rate k })

/-- `PairingStrategies.formatCode` for the backup channel:
`code.match(/.{1,4}/g).join('-')` — split into chunks of four characters and
join with dashes (on a non-empty code; the source never formats an empty
one). -/
def chunks4 (l : List Char) : List (List Char) :=
  if l = [] then [] else l.take 4 :: chunks4 (l.drop 4)
termination_by l.length
decreasing_by
  rename_i hne
  have : l.length ≠ 0 := fun h0 => hne (List.eq_nil_of_length_eq_zero h0)
  simp [List.length_drop]
  omega

/-- JavaScript `array.join('-')` on a list of character chunks. -/
def joinDash : List (List Char) → List Char
  | [] => []
  | [c] => c
  | c :: rest => c ++ '-' :: joinDash rest

/-- Display form of a backup code (`XXXX-XXXX-XXXX`). -/
def formatBackupCode (code : String) : String :=
  String.mk (joinDash (chunks4 code.toList))

/-! ### Concrete instances used by witnesses and counterexamples -/

/-- The empty pairing-strategies state (fresh caches). -/
def emptyPS : PSState :=
  { pairing := fun _ => none, attempts := fun _ => 0,
    backups := fun _ => none, rate := fun _ => none }

/-- A state holding one live primary-channel credential `12345678` for
session `S1`. -/
def demoState : PSState :=
  { emptyPS with
    pairing := fun k =>
      if k = ("S1", "code") then some ⟨"12345678", "15551234567"⟩ else none }

/-- A state holding one live backup-channel credential `ABCDEF123456`
(12 uppercase hex characters) for session `S1`. -/
def demoBackupState : PSState :=
  { emptyPS with
    pairing := fun k =>
      if k = ("S1", "backup") then some ⟨"ABCDEF123456", "15551234567"⟩ else none }

/-- A state whose attempt counter for `(S1, sms)` already records two failed
attempts. -/
def demoAttState : PSState :=
  { emptyPS with attempts := fun k => if k = ("S1", "sms") then 2 else 0 }

/-- An environment where only the SMS generator succeeds. -/
def demoEnvSms : GenEnv :=
  ⟨fun m => if m = "sms" then some "222333" else none⟩

/-- An environment where only the primary-code generator succeeds. -/
def demoEnvCode : GenEnv :=
  ⟨fun m => if m = "code" then some "87654321" else none⟩

/-- An environment where every generator fails (all providers absent). -/
def demoEnvNone : GenEnv := ⟨fun _ => none⟩

/-- An environment where only the voice-call generator succeeds. -/
def demoEnvCall : GenEnv :=
  ⟨fun m => if m = "call" then some "654321" else none⟩

/-- The method has a catalog entry and it is enabled. -/
def methodEnabled (m : String) : Bool :=
  match getStrategy m with
  | some s => s.enabled
  | none => false

/-- A method list is a fallback chain: each member's alternatives are
exactly the members after it.  This holds of `getAlternativeMethods m` for
every catalog method, because alternatives are always the full
strictly-higher-priority suffix of the catalog. -/
def chainInv : List String → Prop
  | [] => True
  | m :: rest => getAlternativeMethods m = rest ∧ chainInv rest

instance chainInvDec : (ms : List String) → Decidable (chainInv ms)
  | [] => .isTrue trivial
  | _m :: rest =>
    have : Decidable (chainInv rest) := chainInvDec rest
    inferInstanceAs (Decidable (_ ∧ _))

/-- One successful primary-channel generation step for phone `15551234567`,
session `S6` (state part only). -/
def genStepCode (st : PSState) : PSState :=
  (generatePairingCode demoEnvCode st "15551234567" "S6" "code").2

/-- The state after five successful primary-channel generations. -/
def fifthGenState : PSState :=
  genStepCode (genStepCode (genStepCode (genStepCode (genStepCode emptyPS))))

/-- The state after `n` rate-limiter checks for `(15551234567, sms)`, all at
time 0. -/
def rlState : Nat → PSState
  | 0 => emptyPS
  | n + 1 => (canAttemptPairing (rlState n) "15551234567" "sms" 0).2

/-! ## Theorems -/

/-! ### Fallback Selector (C1, C4, C7) -/

/-- The candidate list `selectStrategy` builds coincides with the
spec-worded eligible set. -/
theorem eligibleSpec_eq (a : Analysis) : eligibleSpec a = selectCandidates a := by
  have h1 : automaticFallbacks.filter (fun f => condsIntersect f.conditions a.conditions)
      = automaticFallbacks.filter (fun f => matchesConditions f.conditions a.conditions) := by
    apply List.filter_congr
    intro f hf
    fin_cases hf <;>
      simp [matchesConditions, condsIntersect, methodRotationD, codeRegenerationD,
        sessionRefreshD]
  have h2 : emergencyFallbacks.filter (fun f => condsIntersect f.conditions a.conditions)
      = emergencyFallbacks.filter (fun f => matchesConditions f.conditions a.conditions) := by
    apply List.filter_congr
    intro f hf
    fin_cases hf <;>
      simp [matchesConditions, condsIntersect, newSessionD, deviceSwitchD, timeDelayD]
  have h3 : manualFallbacks.filter (fun f => meetsRequirements f.requires a)
      = manualFallbacks := by
    simp [meetsRequirements]
  unfold eligibleSpec selectCandidates
  rw [h1, h2, h3]

/-- Every candidate comes from the nine-descriptor catalog. -/
theorem selectCandidates_sub {a : Analysis} {s : Selected}
    (hs : s ∈ selectCandidates a) : s ∈ allSelected := by
  unfold selectCandidates at hs
  rcases List.mem_append.mp hs with h12 | h3
  · rcases List.mem_append.mp h12 with h1 | h2
    · rcases List.mem_map.mp h1 with ⟨f, hf, rfl⟩
      have hfa : f ∈ automaticFallbacks := List.mem_of_mem_filter hf
      simp only [allSelected, List.mem_append, List.mem_map]
      exact Or.inl (Or.inl ⟨f, hfa, rfl⟩)
    · by_cases hc : a.severity = JSSev.sev .high ∨ a.severity = JSSev.sev .critical
      · rw [if_pos hc] at h2
        rcases List.mem_map.mp h2 with ⟨f, hf, rfl⟩
        have hfm : f ∈ manualFallbacks := List.mem_of_mem_filter hf
        simp only [allSelected, List.mem_append, List.mem_map]
        exact Or.inl (Or.inr ⟨f, hfm, rfl⟩)
      · rw [if_neg hc] at h2
        cases h2
  · by_cases hc : a.severity = JSSev.sev .critical
    · rw [if_pos hc] at h3
      rcases List.mem_map.mp h3 with ⟨f, hf, rfl⟩
      have hfe : f ∈ emergencyFallbacks := List.mem_of_mem_filter hf
      simp only [allSelected, List.mem_append, List.mem_map]
      exact Or.inr ⟨f, hfe, rfl⟩
    · rw [if_neg hc] at h3
      cases h3

/-- Catalog priorities are globally distinct: equal priorities force equal
candidates. -/
theorem allSelected_prio_inj :
    ∀ s ∈ allSelected, ∀ t ∈ allSelected,
      s.desc.priority = t.desc.priority → s = t := by decide

/-- Claim C1: for every Failure Analysis the Selector's eligible set is:
automatic descriptors with intersecting conditions, plus every manual
descriptor exactly when severity is high or critical (requires treated as
satisfied), plus emergency descriptors with intersecting conditions exactly
when severity is critical; the selected strategy is the unique
lowest-priority eligible candidate; with no candidate the outcome is the
terminal `NO_FALLBACK_AVAILABLE` result; and selection is deterministic. -/
theorem claim_C1 (a : Analysis) :
    (∀ s, selectStrategy a = some s →
        s ∈ eligibleSpec a ∧
        (∀ t ∈ eligibleSpec a, s.desc.priority ≤ t.desc.priority) ∧
        (∀ t ∈ eligibleSpec a, t ≠ s → s.desc.priority < t.desc.priority)) ∧
    (selectStrategy a = none ↔ eligibleSpec a = []) ∧
    (∀ exec escExec error context, analyzeError error context = a →
        selectStrategy a = none →
        handleFallback exec escExec error context = .noFallback) ∧
    (∀ a2, a2 = a → selectStrategy a2 = selectStrategy a) := by
  refine ⟨?_, ?_, ?_, ?_⟩
  · intro s hs
    unfold selectStrategy at hs
    rcases hsort : sortByKey (fun s => s.desc.priority) (selectCandidates a) with _ | ⟨x, r⟩
    · rw [hsort] at hs
      cases hs
    · rw [hsort] at hs
      have hx : s = x := by
        have := hs
        simp at this
        exact this.symm
      subst hx
      obtain ⟨hmem, hmin⟩ := head_sortByKey_min hsort
      rw [eligibleSpec_eq]
      refine ⟨hmem, fun t ht => hmin t ht, ?_⟩
      intro t ht hne
      have h1 := hmin t ht
      rcases lt_or_eq_of_le h1 with h | h
      · exact h
      · exact absurd
          (allSelected_prio_inj s (selectCandidates_sub hmem) t
            (selectCandidates_sub ht) h).symm hne
  · rw [eligibleSpec_eq]
    constructor
    · intro h
      unfold selectStrategy at h
      exact sortByKey_eq_nil.mp (List.head?_eq_none_iff.mp h)
    · intro h
      unfold selectStrategy
      exact List.head?_eq_none_iff.mpr (sortByKey_eq_nil.mpr h)
  · intro exec escExec error context heq hnone
    simp [handleFallback, heq, hnone]
  · intro a2 h
    rw [h]

/-- Witness for C1 at the Failure Analysis produced for an expired-code
failure: the Selector picks `code_regeneration`, which is eligible. -/
theorem claim_C1_witness :
    selectStrategy ⟨"expired", .sev .medium, ["code_expired", "session_stale"]⟩
      = some ⟨codeRegenerationD, "automatic"⟩ ∧
    (⟨codeRegenerationD, "automatic"⟩ : Selected)
      ∈ eligibleSpec ⟨"expired", .sev .medium, ["code_expired", "session_stale"]⟩ :=
  ⟨by decide,
   ((claim_C1 ⟨"expired", .sev .medium, ["code_expired", "session_stale"]⟩).1
      ⟨codeRegenerationD, "automatic"⟩ (by decide)).1⟩

/-- Claim C4 is a code bug: the escalation steps assign
`Math.max(severity, 'medium'|'high')`, which on the severity strings is
`NaN`.  For the raw error `"rate limit"`, attempts 0 yields severity
`'high'`, but attempts 10 yields `NaN` — not a severity at least medium, and
strictly worse downstream: the high-severity analysis selects the
`backup_codes` manual strategy while the escalated (`NaN`) analysis selects
nothing at all. -/
theorem claim_C4_bug :
    (analyzeError "rate limit" ⟨0, 0⟩).severity = JSSev.sev .high ∧
    (analyzeError "rate limit" ⟨10, 0⟩).severity = JSSev.nan ∧
    ¬ JSSev.atLeast (analyzeError "rate limit" ⟨10, 0⟩).severity .medium ∧
    (analyzeError "expired" ⟨0, 301000⟩).severity = JSSev.nan ∧
    ¬ JSSev.atLeast (analyzeError "expired" ⟨0, 301000⟩).severity .high ∧
    selectStrategy (analyzeError "rate limit" ⟨0, 0⟩) = some ⟨backupCodesD, "manual"⟩ ∧
    selectStrategy (analyzeError "rate limit" ⟨10, 0⟩) = none := by decide

/-- Claim C7: at critical severity a candidate always exists (the manual
tier is unconditionally eligible), so the no-descriptor case of the claim
cannot arise; whenever the selected strategy's execution reports failure at
critical severity, `handleFallback` returns the Critical Escalation outcome;
and the escalation tries force-new-session, support ticket, system reset in
that fixed order, stops at the first success, and when all three fail
returns the terminal failure carrying the static support contact (never an
exception — the embedding is a total function). -/
theorem claim_C7 :
    (∀ a : Analysis, a.severity = JSSev.sev .critical → selectStrategy a ≠ none) ∧
    (∀ (exec : Selected → ExecResult) (escExec : EscAction → EscResult)
        (error : String) (context : Context) (s : Selected),
        (analyzeError error context).severity = JSSev.sev .critical →
        selectStrategy (analyzeError error context) = some s →
        (exec s).success = false →
        handleFallback exec escExec error context
          = .escalated (handleCriticalFallback escExec)) ∧
    (∀ escExec : EscAction → EscResult,
        handleCriticalFallback escExec =
          match emergencyActions.find? (fun a => (escExec a).success) with
          | some act => .resolved act (escExec act)
          | none => .exhausted staticSupportContact) := by
  refine ⟨?_, ?_, ?_⟩
  · intro a hsev hnone
    unfold selectStrategy at hnone
    have hnil := sortByKey_eq_nil.mp (List.head?_eq_none_iff.mp hnone)
    rw [selectCandidates, hsev] at hnil
    simp [meetsRequirements, manualFallbacks] at hnil
  · intro exec escExec error context s hsev hsel hfail
    simp [handleFallback, hsel, hfail, hsev]
  · intro escExec
    have hsorted : sortByKey escPriority emergencyActions = emergencyActions := by decide
    unfold handleCriticalFallback
    rw [hsorted]
    cases h1 : (escExec .forceNewSession).success <;>
      cases h2 : (escExec .supportEscalation).success <;>
        cases h3 : (escExec .systemReset).success <;>
          simp [emergencyActions, tryEmergencyActions, List.find?, h1, h2, h3]

/-- Witness for C7: a concrete critical failure whose selected strategy's
execution fails and whose three emergency actions all fail ends in the
terminal support-contact result. -/
theorem claim_C7_witness :
    handleFallback (fun _ => ⟨false⟩) (fun _ => ⟨false⟩)
        "all methods failed" ⟨0, 0⟩
      = .escalated (.exhausted staticSupportContact) := by
  have h := claim_C7.2.1 (fun _ => ⟨false⟩) (fun _ => ⟨false⟩)
    "all methods failed" ⟨0, 0⟩ ⟨backupCodesD, "manual"⟩
    (by decide) (by decide) rfl
  rw [h, claim_C7.2.2 (fun _ => ⟨false⟩)]
  rfl

/-! ### Verification Engine (C2, C3, C9) -/

/-- `verifyPairingCode` with no live credential: terminal `CODE_EXPIRED`,
state untouched. -/
theorem verify_missing {st : PSState} {sessionId method : String} (code : String)
    (hnone : st.pairing (sessionId, method) = none) :
    verifyPairingCode st sessionId code method
      = ({ success := false, error := some "CODE_EXPIRED" }, st) := by
  unfold verifyPairingCode
  rw [hnone]

/-- `verifyPairingCode` on a matching code: success, credential deleted. -/
theorem verify_right {st : PSState} {sessionId method code : String} {pd : PairingData}
    (hpd : st.pairing (sessionId, method) = some pd)
    (heq : normalize code = normalize pd.code) :
    verifyPairingCode st sessionId code method
      = ({ success := true, phone := some pd.phone },
         { st with pairing := fun k =>
             if k = (sessionId, method) then none else st.pairing k }) := by
  unfold verifyPairingCode
  rw [hpd]
  simp [heq]

/-- `verifyPairingCode` on a wrong code while fewer than 3 attempts are
recorded: `INVALID_CODE` with `3 - attempts` attempts left and the counter
ticked. -/
theorem verify_wrong_low {st : PSState} {sessionId method code : String}
    {pd : PairingData}
    (hpd : st.pairing (sessionId, method) = some pd)
    (hne : normalize code ≠ normalize pd.code)
    (hlt : st.attempts (sessionId, method) < 3) :
    verifyPairingCode st sessionId code method
      = ({ success := false, error := some "INVALID_CODE",
           attemptsLeft := some ((3 : Int) - st.attempts (sessionId, method)) },
         { st with attempts := fun k =>
             if k = (sessionId, method) then st.attempts (sessionId, method) + 1
             else st.attempts k }) := by
  unfold verifyPairingCode getAttemptsLeft
  rw [hpd]
  simp only [hne, ite_true, if_pos, ne_eq, not_false_eq_true]
  have hpos : (0 : Int) < 3 - st.attempts (sessionId, method) := by
    omega
  rw [if_pos hpos]
  simp
  omega

/-- `verifyPairingCode` on a wrong code once 3 or more attempts are
recorded: `INVALID_CODE` with 0 attempts left, counter left alone (no
underflow). -/
theorem verify_wrong_max {st : PSState} {sessionId method code : String}
    {pd : PairingData}
    (hpd : st.pairing (sessionId, method) = some pd)
    (hne : normalize code ≠ normalize pd.code)
    (hge : 3 ≤ st.attempts (sessionId, method)) :
    verifyPairingCode st sessionId code method
      = ({ success := false, error := some "INVALID_CODE",
           attemptsLeft := some 0 }, st) := by
  unfold verifyPairingCode getAttemptsLeft
  rw [hpd]
  simp only [hne, ite_true, if_pos, ne_eq, not_false_eq_true]
  have hneg : ¬ ((0 : Int) < 3 - st.attempts (sessionId, method)) := by
    omega
  rw [if_neg hneg]
  simp
  omega

/-- Claim C2: verification is single-use — a matching code succeeds, deletes
the credential and leaves the attempt counter untouched; an immediate second
verification of the same code fails with `CODE_EXPIRED`; and with no live
credential the call fails with `CODE_EXPIRED` independently of the submitted
code (no comparison happens). -/
theorem claim_C2 :
    (∀ (st : PSState) (sessionId method code : String) (pd : PairingData),
        st.pairing (sessionId, method) = some pd →
        normalize code = normalize pd.code →
        (verifyPairingCode st sessionId code method).1.success = true ∧
        (verifyPairingCode st sessionId code method).2.attempts = st.attempts ∧
        (verifyPairingCode st sessionId code method).2.pairing (sessionId, method)
          = none ∧
        (verifyPairingCode (verifyPairingCode st sessionId code method).2
            sessionId code method).1
          = { success := false, error := some "CODE_EXPIRED" }) ∧
    (∀ (st : PSState) (sessionId method c1 c2 : String),
        st.pairing (sessionId, method) = none →
        verifyPairingCode st sessionId c1 method
          = ({ success := false, error := some "CODE_EXPIRED" }, st) ∧
        verifyPairingCode st sessionId c1 method
          = verifyPairingCode st sessionId c2 method) := by
  constructor
  · intro st sessionId method code pd hpd hcode
    rw [verify_right hpd hcode]
    refine ⟨rfl, rfl, by simp, ?_⟩
    rw [verify_missing code (by simp)]
  · intro st sessionId method c1 c2 hnone
    rw [verify_missing c1 hnone, verify_missing c2 hnone]
    exact ⟨rfl, rfl⟩

/-- Witness for C2: the live `S1` primary credential verifies once (also in
its `1234-5678` display form) and is gone on the second attempt. -/
theorem claim_C2_witness :
    (verifyPairingCode demoState "S1" "1234-5678" "code").1.success = true ∧
    (verifyPairingCode (verifyPairingCode demoState "S1" "1234-5678" "code").2
        "S1" "1234-5678" "code").1
      = { success := false, error := some "CODE_EXPIRED" } := by
  have h := (claim_C2.1 demoState "S1" "code" "1234-5678" ⟨"12345678", "15551234567"⟩
    (by decide) (by decide))
  exact ⟨h.1, h.2.2.2⟩

/-- Counterexample to C3 as stated: on a fresh attempt counter the FIRST
wrong submission already reports 3 attempts left (the source reads the
counter before incrementing it), not 2 as the claim says. -/
theorem claim_C3_counterexample :
    (verifyPairingCode demoState "S1" "00000000" "code").1.attemptsLeft = some 3 ∧
    (verifyPairingCode demoState "S1" "00000000" "code").1.attemptsLeft ≠ some 2 := by
  have h := @verify_wrong_low demoState "S1" "code" "00000000"
    ⟨"12345678", "15551234567"⟩ (by decide) (by decide) (by decide)
  rw [h]
  exact ⟨by norm_num [demoState, emptyPS], by norm_num [demoState, emptyPS]⟩

/-- Claim C3 (amended): starting from a fresh counter, four consecutive
wrong submissions report 3, 2, 1 and then 0 attempts left; the floor is 0 (a
fifth wrong submission still reports 0 and leaves the counter at 3); no
mismatch deletes the credential, so the correct code still verifies
afterwards. -/
theorem claim_C3 (st : PSState) (sessionId method : String) (pd : PairingData)
    (w1 w2 w3 w4 w5 c : String)
    (hpd : st.pairing (sessionId, method) = some pd)
    (hatt : st.attempts (sessionId, method) = 0)
    (h1 : normalize w1 ≠ normalize pd.code)
    (h2 : normalize w2 ≠ normalize pd.code)
    (h3 : normalize w3 ≠ normalize pd.code)
    (h4 : normalize w4 ≠ normalize pd.code)
    (h5 : normalize w5 ≠ normalize pd.code)
    (hc : normalize c = normalize pd.code) :
    (verifyPairingCode st sessionId w1 method).1.attemptsLeft = some 3 ∧
    ((verifyPairingCode st sessionId w1 method).2 |> fun s1 =>
      (verifyPairingCode s1 sessionId w2 method).1.attemptsLeft = some 2 ∧
      ((verifyPairingCode s1 sessionId w2 method).2 |> fun s2 =>
        (verifyPairingCode s2 sessionId w3 method).1.attemptsLeft = some 1 ∧
        ((verifyPairingCode s2 sessionId w3 method).2 |> fun s3 =>
          (verifyPairingCode s3 sessionId w4 method).1.attemptsLeft = some 0 ∧
          ((verifyPairingCode s3 sessionId w4 method).2 |> fun s4 =>
            (verifyPairingCode s4 sessionId w5 method).1.attemptsLeft = some 0 ∧
            s4.attempts (sessionId, method) = 3 ∧
            s4.pairing (sessionId, method) = some pd ∧
            (verifyPairingCode s4 sessionId c method).1.success = true)))) := by
  have e1 := verify_wrong_low hpd h1 (by omega)
  set s1 := (verifyPairingCode st sessionId w1 method).2 with hs1
  have hpd1 : s1.pairing (sessionId, method) = some pd := by
    rw [hs1, e1]
    exact hpd
  have hatt1 : s1.attempts (sessionId, method) = 1 := by
    rw [hs1, e1]
    simp [hatt]
  have e2 := verify_wrong_low hpd1 h2 (by omega)
  set s2 := (verifyPairingCode s1 sessionId w2 method).2 with hs2
  have hpd2 : s2.pairing (sessionId, method) = some pd := by
    rw [hs2, e2]
    exact hpd1
  have hatt2 : s2.attempts (sessionId, method) = 2 := by
    rw [hs2, e2]
    simp [hatt1]
  have e3 := verify_wrong_low hpd2 h3 (by omega)
  set s3 := (verifyPairingCode s2 sessionId w3 method).2 with hs3
  have hpd3 : s3.pairing (sessionId, method) = some pd := by
    rw [hs3, e3]
    exact hpd2
  have hatt3 : s3.attempts (sessionId, method) = 3 := by
    rw [hs3, e3]
    simp [hatt2]
  have e4 := verify_wrong_max hpd3 h4 (by omega)
  set s4 := (verifyPairingCode s3 sessionId w4 method).2 with hs4
  have hpd4 : s4.pairing (sessionId, method) = some pd := by
    rw [hs4, e4]
    exact hpd3
  have hatt4 : s4.attempts (sessionId, method) = 3 := by
    rw [hs4, e4]
    exact hatt3
  have e5 := verify_wrong_max hpd4 h5 (by omega)
  refine ⟨by rw [e1]; simp [hatt], by rw [e2]; simp [hatt1], by rw [e3]; simp [hatt2],
    by rw [e4], by rw [e5], hatt4, hpd4, ?_⟩
  rw [verify_right hpd4 hc]

/-- Witness for C3: the concrete 3-2-1-0-0 run on the `S1` credential with
wrong code `00000000` and correct code `1234-5678`. -/
theorem claim_C3_witness :
    (verifyPairingCode demoState "S1" "00000000" "code").1.attemptsLeft = some 3 := by
  exact (claim_C3 demoState "S1" "code" ⟨"12345678", "15551234567"⟩
    "00000000" "00000000" "00000000" "00000000" "00000000" "1234-5678"
    (by decide) (by decide) (by decide) (by decide) (by decide) (by decide)
    (by decide) (by decide)).1

/-- Chunking a character list into groups of four and flattening gives the
original list back. -/
theorem chunks4_join_aux (n : Nat) :
    ∀ l : List Char, l.length ≤ n → (chunks4 l).flatten = l := by
  induction n with
  | zero =>
    intro l hl
    have hnil : l = [] := List.eq_nil_of_length_eq_zero (by omega)
    subst hnil
    rw [chunks4]
    simp
  | succ n ih =>
    intro l hl
    rw [chunks4]
    split
    · rename_i h
      simp [h]
    · rename_i h
      have hlen : 1 ≤ l.length := by
        cases l
        · exact absurd rfl h
        · simp
      rw [List.flatten_cons, ih (l.drop 4) (by simp; omega)]
      exact List.take_append_drop 4 l

theorem chunks4_join (l : List Char) : (chunks4 l).flatten = l :=
  chunks4_join_aux l.length l le_rfl

/-- The dashes inserted by `join('-')` are invisible to the digit filter. -/
theorem filter_joinDash (cs : List (List Char)) :
    (joinDash cs).filter Char.isDigit = cs.flatten.filter Char.isDigit := by
  induction cs with
  | nil => rfl
  | cons c rest ih =>
    cases rest with
    | nil => simp [joinDash]
    | cons d rest2 =>
      have hj : joinDash (c :: d :: rest2) = c ++ '-' :: joinDash (d :: rest2) := rfl
      rw [hj, List.flatten_cons, List.filter_append, List.filter_append]
      have hd : List.filter Char.isDigit ('-' :: joinDash (d :: rest2))
          = List.filter Char.isDigit (joinDash (d :: rest2)) := by
        simp [List.filter_cons]
      rw [hd, ih]

/-- Formatting a backup code into its grouped display form does not change
its normalization. -/
theorem normalize_formatBackup (code : String) :
    normalize (formatBackupCode code) = normalize code := by
  unfold normalize formatBackupCode
  congr 1
  have h1 : (String.mk (joinDash (chunks4 code.toList))).toList
      = joinDash (chunks4 code.toList) := rfl
  rw [h1, filter_joinDash, chunks4_join]

/-- Counterexample to C9 as stated: normalization strips ALL non-digits, not
only non-alphanumeric formatting characters — the fully alphanumeric backup
code `A1B2C3D4E5F6` is reduced to `123456` — and consequently a submission
that differs from the stored backup code in its letters still verifies. -/
theorem claim_C9_counterexample :
    normalize "A1B2C3D4E5F6" = "123456" ∧
    "A1B2C3D4E5F6".toList.all Char.isAlphanum = true ∧
    (verifyPairingCode demoBackupState "S1" "ZZ123456ZZ" "backup").1.success = true ∧
    ("ZZ123456ZZ" : String) ≠ "ABCDEF123456" := by decide

/-- Claim C9 (amended): `verify` normalizes both codes by stripping every
non-digit character (letters included, not only non-alphanumeric formatting
characters), so any submission with the same digit content as the stored
code matches; in particular a backup credential submitted in its grouped
`XXXX-XXXX-XXXX` display form compares equal to the stored code, both being
reduced to the same digit subsequence. -/
theorem claim_C9 (st : PSState) (sessionId method submitted : String)
    (pd : PairingData)
    (hpd : st.pairing (sessionId, method) = some pd)
    (hsub : normalize submitted = normalize pd.code) :
    normalize submitted = String.mk (submitted.toList.filter Char.isDigit) ∧
    (verifyPairingCode st sessionId submitted method).1.success = true ∧
    (verifyPairingCode st sessionId (formatBackupCode pd.code) method).1.success
      = true := by
  refine ⟨rfl, ?_, ?_⟩
  · rw [verify_right hpd hsub]
  · rw [verify_right hpd (normalize_formatBackup pd.code)]

/-- Witness for C9: the stored 12-hex backup code `ABCDEF123456` verifies
both as `ABCD-EF12-3456` and in its computed grouped display form. -/
theorem claim_C9_witness :
    (verifyPairingCode demoBackupState "S1" "ABCD-EF12-3456" "backup").1.success
      = true ∧
    (verifyPairingCode demoBackupState "S1" (formatBackupCode "ABCDEF123456")
        "backup").1.success = true := by
  have h := claim_C9 demoBackupState "S1" "backup" "ABCD-EF12-3456"
    ⟨"ABCDEF123456", "15551234567"⟩ (by decide) (by decide)
  exact ⟨h.2.1, h.2.2⟩

/-! ### Credential generation (C8, C5, C6, C10) -/

/-- A successful `generatePairingCode` run: the success result, the
overwritten credential entry, the untouched sibling entries, and the
untouched attempt and rate counters. -/
theorem gen_success {env : GenEnv} {st : PSState}
    {phone sessionId method : String} {strat : ChannelStrategy} {code : String}
    (hstrat : getStrategy method = some strat) (hen : strat.enabled = true)
    (hout : env.genOutcome method = some code) :
    (generatePairingCode env st phone sessionId method).1
      = { success := true, method := some method, code := some code,
          expiresIn := some strat.timeout,
          alternatives := getAlternativeMethods method } ∧
    (generatePairingCode env st phone sessionId method).2.pairing
        (sessionId, method) = some ⟨code, phone⟩ ∧
    (∀ k, k ≠ (sessionId, method) →
        (generatePairingCode env st phone sessionId method).2.pairing k
          = st.pairing k) ∧
    (generatePairingCode env st phone sessionId method).2.attempts
      = st.attempts ∧
    (generatePairingCode env st phone sessionId method).2.rate = st.rate := by
  refine ⟨?_, ?_, ?_, ?_, ?_⟩
  · simp [generatePairingCode, hstrat, hen, hout]
  · simp [generatePairingCode, hstrat, hen, hout]
  · intro k hk
    simp only [generatePairingCode, hstrat, hen, hout, if_true]
    simp [hk]
    split <;> rfl
  · simp only [generatePairingCode, hstrat, hen, hout, if_true]
    split <;> rfl
  · simp only [generatePairingCode, hstrat, hen, hout, if_true]
    split <;> rfl

/-- Claim C8 (amended): a successful generate overwrites the Credential
Store entry for `(sessionId, channel)` and leaves every other entry
unchanged, but it does NOT reset the Attempt Counter: the whole attempt map
is left untouched. -/
theorem claim_C8 (env : GenEnv) (st : PSState) (phone sessionId method : String)
    (strat : ChannelStrategy) (code : String)
    (hstrat : getStrategy method = some strat) (hen : strat.enabled = true)
    (hout : env.genOutcome method = some code) :
    (generatePairingCode env st phone sessionId method).1.success = true ∧
    (generatePairingCode env st phone sessionId method).2.pairing
        (sessionId, method) = some ⟨code, phone⟩ ∧
    (∀ k, k ≠ (sessionId, method) →
        (generatePairingCode env st phone sessionId method).2.pairing k
          = st.pairing k) ∧
    (generatePairingCode env st phone sessionId method).2.attempts
      = st.attempts := by
  obtain ⟨h1, h2, h3, h4, _⟩ := gen_success hstrat hen hout
  exact ⟨by rw [h1], h2, h3, h4⟩

/-- Counterexample to C8 as stated: a successful SMS generation on a state
whose attempt counter for `(S1, sms)` already stands at 2 leaves it at 2 —
the counter is not reset to its initial state 0. -/
theorem claim_C8_counterexample :
    (generatePairingCode demoEnvSms demoAttState "15551234567" "S1" "sms").1.success
      = true ∧
    demoAttState.attempts ("S1", "sms") = 2 ∧
    (generatePairingCode demoEnvSms demoAttState "15551234567" "S1" "sms").2.attempts
        ("S1", "sms") = 2 ∧
    (2 : Nat) ≠ 0 := by
  obtain ⟨h1, _, _, h4, _⟩ := @gen_success demoEnvSms demoAttState "15551234567"
    "S1" "sms" ⟨true, 2, 300⟩ "222333" (by decide) rfl (by decide)
  refine ⟨by rw [h1], by decide, by rw [h4]; decide, by decide⟩

/-- Witness for C8 (amended) at a concrete successful SMS generation. -/
theorem claim_C8_witness :
    (generatePairingCode demoEnvSms emptyPS "15551234567" "S1" "sms").1.success
      = true ∧
    (generatePairingCode demoEnvSms emptyPS "15551234567" "S1" "sms").2.pairing
        ("S1", "sms") = some ⟨"222333", "15551234567"⟩ := by
  have h := claim_C8 demoEnvSms emptyPS "15551234567" "S1" "sms"
    ⟨true, 2, 300⟩ "222333" (by decide) rfl (by decide)
  exact ⟨h.1, h.2.1⟩

/-- `canAttemptPairing` with no live counter entry: allowed, counter set
to 1 with a fresh 300-second window. -/
theorem can_fresh {st : PSState} {phone method : String} {now : Int}
    (h : st.rate (phone, method) = none) :
    canAttemptPairing st phone method now
      = ({ allowed := true },
         { st with rate := fun k =>
             if k = (phone, method) then some (1, now + 300 * 1000)
             else st.rate k }) := by
  unfold canAttemptPairing rateGet
  rw [h]
  simp

/-- `canAttemptPairing` with a live counter below 5: allowed, counter
incremented with a fresh window. -/
theorem can_live_low {st : PSState} {phone method : String} {now : Int}
    {v : Nat} {exp : Int}
    (h : st.rate (phone, method) = some (v, exp))
    (halive : ¬ exp < now) (hlow : v < 5) :
    canAttemptPairing st phone method now
      = ({ allowed := true },
         { st with rate := fun k =>
             if k = (phone, method) then some (v + 1, now + 300 * 1000)
             else st.rate k }) := by
  have hnot : ¬ v ≥ 5 := by omega
  unfold canAttemptPairing rateGet
  rw [h]
  simp [halive, hnot]

/-- `canAttemptPairing` with a live counter at 5 or more: blocked with
`RATE_LIMITED` and the remaining window rounded up to minutes; state
unchanged. -/
theorem can_live_high {st : PSState} {phone method : String} {now : Int}
    {v : Nat} {exp : Int}
    (h : st.rate (phone, method) = some (v, exp))
    (halive : ¬ exp < now) (hhigh : 5 ≤ v) :
    canAttemptPairing st phone method now
      = ({ allowed := false, reason := some "RATE_LIMITED",
           retryAfter := some (jsCeilDiv (exp - now) 60000) }, st) := by
  have hys : v ≥ 5 := by omega
  unfold canAttemptPairing rateGet
  rw [h]
  simp [halive, hys]

/-- A strictly remaining window rounds up to at least one minute. -/
theorem jsCeilDiv_pos {a : Int} (ha : 0 < a) : 1 ≤ jsCeilDiv a 60000 := by
  unfold jsCeilDiv
  have h1 : (-a : Int) ≤ -1 := by omega
  have h2 : (-a).ediv 60000 ≤ (-1 : Int).ediv 60000 :=
    Int.ediv_le_ediv (by norm_num) h1
  have h3 : ((-1 : Int)).ediv 60000 = -1 := by decide
  omega

/-- Claim C5 (amended): the Rate Counter function `canAttemptPairing`, called
six times within a rolling 5-minute window for the same `(phone, channel)`,
allows the first five calls and rejects the sixth with `RATE_LIMITED` and a
positive `retryAfter`, and keeps rejecting for the remainder of the window —
but `generatePairingCode` never consults it, so generation itself is not
blocked (see the counterexample). -/
theorem claim_C5 (st : PSState) (phone method : String) (t1 t2 t3 t4 t5 t6 : Int)
    (hfresh : st.rate (phone, method) = none)
    (h12 : t1 ≤ t2) (h23 : t2 ≤ t3) (h34 : t3 ≤ t4) (h45 : t4 ≤ t5)
    (h56 : t5 ≤ t6) (hwin : t6 < t1 + 300000) :
    (canAttemptPairing st phone method t1).1.allowed = true ∧
    ((canAttemptPairing st phone method t1).2 |> fun s1 =>
      (canAttemptPairing s1 phone method t2).1.allowed = true ∧
      ((canAttemptPairing s1 phone method t2).2 |> fun s2 =>
        (canAttemptPairing s2 phone method t3).1.allowed = true ∧
        ((canAttemptPairing s2 phone method t3).2 |> fun s3 =>
          (canAttemptPairing s3 phone method t4).1.allowed = true ∧
          ((canAttemptPairing s3 phone method t4).2 |> fun s4 =>
            (canAttemptPairing s4 phone method t5).1.allowed = true ∧
            ((canAttemptPairing s4 phone method t5).2 |> fun s5 =>
              (canAttemptPairing s5 phone method t6).1.allowed = false ∧
              (canAttemptPairing s5 phone method t6).1.reason
                = some "RATE_LIMITED" ∧
              (canAttemptPairing s5 phone method t6).1.retryAfter
                = some (jsCeilDiv (t5 + 300000 - t6) 60000) ∧
              1 ≤ jsCeilDiv (t5 + 300000 - t6) 60000 ∧
              (∀ t7, t6 ≤ t7 → ¬ t5 + 300000 < t7 →
                (canAttemptPairing (canAttemptPairing s5 phone method t6).2
                    phone method t7).1.allowed = false)))))) := by
  have e1 := @can_fresh st phone method t1 hfresh
  set s1 := (canAttemptPairing st phone method t1).2 with hs1
  have hr1 : s1.rate (phone, method) = some (1, t1 + 300 * 1000) := by
    rw [hs1, e1]
    simp
  have e2 := @can_live_low s1 phone method t2 1 (t1 + 300 * 1000) hr1 (by omega) (by omega)
  set s2 := (canAttemptPairing s1 phone method t2).2 with hs2
  have hr2 : s2.rate (phone, method) = some (2, t2 + 300 * 1000) := by
    rw [hs2, e2]
    simp
  have e3 := @can_live_low s2 phone method t3 2 (t2 + 300 * 1000) hr2 (by omega) (by omega)
  set s3 := (canAttemptPairing s2 phone method t3).2 with hs3
  have hr3 : s3.rate (phone, method) = some (3, t3 + 300 * 1000) := by
    rw [hs3, e3]
    simp
  have e4 := @can_live_low s3 phone method t4 3 (t3 + 300 * 1000) hr3 (by omega) (by omega)
  set s4 := (canAttemptPairing s3 phone method t4).2 with hs4
  have hr4 : s4.rate (phone, method) = some (4, t4 + 300 * 1000) := by
    rw [hs4, e4]
    simp
  have e5 := @can_live_low s4 phone method t5 4 (t4 + 300 * 1000) hr4 (by omega) (by omega)
  set s5 := (canAttemptPairing s4 phone method t5).2 with hs5
  have hr5 : s5.rate (phone, method) = some (5, t5 + 300 * 1000) := by
    rw [hs5, e5]
    simp
  have e6 := @can_live_high s5 phone method t6 5 (t5 + 300 * 1000) hr5 (by omega) (by omega)
  have hret : (5 : Int) * 60000 = 300000 := by norm_num
  refine ⟨by rw [e1], by rw [e2], by rw [e3], by rw [e4], by rw [e5],
    by rw [e6], by rw [e6], ?_, jsCeilDiv_pos (by omega), ?_⟩
  · rw [e6]
    norm_num
  · intro t7 h67 halive7
    have hs6 : (canAttemptPairing s5 phone method t6).2 = s5 := by
      rw [e6]
    rw [hs6]
    have e7 := @can_live_high s5 phone method t7 5 (t5 + 300 * 1000) hr5 (by omega) (by omega)
    rw [e7]

/-- Counterexample to C5 as stated: `generatePairingCode` never consults the
Rate Counter — a sixth consecutive generate call for the same
`(phone, channel)` still succeeds (no `RATE_LIMITED` rejection), and the
rate-counter entry for the pair remains empty throughout. -/
theorem claim_C5_counterexample :
    (generatePairingCode demoEnvCode fifthGenState "15551234567" "S6" "code").1.success
      = true ∧
    (generatePairingCode demoEnvCode fifthGenState "15551234567" "S6" "code").1.error
      ≠ some "RATE_LIMITED" ∧
    fifthGenState.rate ("15551234567", "code") = none := by
  have hgen := fun st : PSState =>
    @gen_success demoEnvCode st "15551234567" "S6" "code" ⟨true, 1, 600⟩
      "87654321" (by decide) rfl (by decide)
  have hrate : ∀ st : PSState, (genStepCode st).rate = st.rate := by
    intro st
    exact (hgen st).2.2.2.2
  refine ⟨by rw [(hgen fifthGenState).1], by rw [(hgen fifthGenState).1]; decide, ?_⟩
  show (genStepCode (genStepCode (genStepCode (genStepCode (genStepCode emptyPS))))).rate
      ("15551234567", "code") = none
  rw [hrate, hrate, hrate, hrate, hrate]
  rfl

/-- Witness for C5 (amended): six rate-limiter checks at time 0 — the sixth
is rejected with a 5-minute retry-after. -/
theorem claim_C5_witness :
    (canAttemptPairing (rlState 5) "15551234567" "sms" 0).1.allowed = false ∧
    (canAttemptPairing (rlState 5) "15551234567" "sms" 0).1.reason
      = some "RATE_LIMITED" ∧
    (canAttemptPairing (rlState 5) "15551234567" "sms" 0).1.retryAfter
      = some 5 := by
  have h := claim_C5 emptyPS "15551234567" "sms" 0 0 0 0 0 0 rfl
    le_rfl le_rfl le_rfl le_rfl le_rfl (by norm_num)
  refine ⟨h.2.2.2.2.2.1, h.2.2.2.2.2.2.1, ?_⟩
  exact (h.2.2.2.2.2.2.2.1).trans (by decide)

/-! ### The fallback chain (C6, C10) -/

theorem getStrategy_of_mem {p : String × ChannelStrategy}
    (hp : p ∈ strategyList) : getStrategy p.1 = some p.2 := by
  fin_cases hp <;> rfl

theorem gs_code : getStrategy "code" = some ⟨true, 1, 600⟩ := by decide

theorem gs_sms : getStrategy "sms" = some ⟨true, 2, 300⟩ := by decide

theorem gs_call : getStrategy "call" = some ⟨true, 3, 300⟩ := by decide

theorem gs_email : getStrategy "email" = some ⟨true, 4, 600⟩ := by decide

theorem gs_backup : getStrategy "backup" = some ⟨true, 5, 0⟩ := by decide

theorem alt_code :
    getAlternativeMethods "code" = ["sms", "call", "email", "backup"] := by decide

theorem alt_sms :
    getAlternativeMethods "sms" = ["call", "email", "backup"] := by decide

theorem alt_call : getAlternativeMethods "call" = ["email", "backup"] := by decide

theorem alt_email : getAlternativeMethods "email" = ["backup"] := by decide

theorem alt_backup : getAlternativeMethods "backup" = [] := by decide

/-- The membership hypothesis of `tryAlternatives` is proof-irrelevant: the
loop's value only depends on the list. -/
theorem tryAlt_congr {env : GenEnv} {st : PSState}
    {phone sessionId f : String} {ms1 ms2 : List String}
    (hms : ms1 = ms2)
    (h1 : ∀ m ∈ ms1, prioOf f < prioOf m ∧ prioOf m ≤ 5)
    (h2 : ∀ m ∈ ms2, prioOf f < prioOf m ∧ prioOf m ≤ 5) :
    tryAlternatives env st phone sessionId f ms1 h1
      = tryAlternatives env st phone sessionId f ms2 h2 := by
  subst hms
  rfl

/-- Exhausted alternatives: the terminal `ALL_METHODS_FAILED` result, state
unchanged. -/
theorem tryAlt_nil (env : GenEnv) (st : PSState)
    (phone sessionId failedMethod : String)
    (h : ∀ m ∈ ([] : List String), prioOf failedMethod < prioOf m ∧ prioOf m ≤ 5) :
    tryAlternatives env st phone sessionId failedMethod [] h
      = ({ success := false, error := some "ALL_METHODS_FAILED",
           originalMethod := some failedMethod,
           triedFallbacks := getAlternativeMethods failedMethod }, st) := by
  simp [tryAlternatives]

/-- A successful head alternative stops the loop, tagging the result with
`fallback: true` and the failed method. -/
theorem tryAlt_cons_succ {env : GenEnv} {st : PSState}
    {phone sessionId failedMethod m : String} {rest : List String}
    {h : ∀ x ∈ m :: rest, prioOf failedMethod < prioOf x ∧ prioOf x ≤ 5}
    (hs : (generatePairingCode env st phone sessionId m).1.success = true) :
    tryAlternatives env st phone sessionId failedMethod (m :: rest) h
      = ({ (generatePairingCode env st phone sessionId m).1 with
           fallback := true, originalMethod := some failedMethod },
         (generatePairingCode env st phone sessionId m).2) := by
  simp [tryAlternatives, hs]

/-- A failed head alternative continues the loop on the produced state. -/
theorem tryAlt_cons_fail {env : GenEnv} {st : PSState}
    {phone sessionId failedMethod m : String} {rest : List String}
    {h : ∀ x ∈ m :: rest, prioOf failedMethod < prioOf x ∧ prioOf x ≤ 5}
    (hf : (generatePairingCode env st phone sessionId m).1.success = false) :
    tryAlternatives env st phone sessionId failedMethod (m :: rest) h
      = tryAlternatives env (generatePairingCode env st phone sessionId m).2
          phone sessionId failedMethod rest
          (fun x hx => h x (List.mem_cons_of_mem m hx)) := by
  simp [tryAlternatives, hf]

/-- A known, enabled method whose generator throws enters the fallback
chain over its alternatives. -/
theorem gen_fail_to_chain {env : GenEnv} {st : PSState}
    {phone sessionId method : String} {strat : ChannelStrategy}
    (hstrat : getStrategy method = some strat) (hen : strat.enabled = true)
    (hout : env.genOutcome method = none) :
    generatePairingCode env st phone sessionId method
      = tryAlternatives env st phone sessionId method
          (getAlternativeMethods method) (fun _m hm => prioOf_alt hm) := by
  simp only [generatePairingCode, hstrat, hen, hout, if_true]
  simp only [tryFallbackMethod]

/-- Walking a fallback chain of enabled methods: the loop succeeds exactly
at the first member whose generator produces a code — tagging the result as
a fallback from the failed method — and otherwise returns the terminal
`ALL_METHODS_FAILED` result with the state unchanged. -/
theorem tryAlternatives_spec (env : GenEnv) (ms : List String) :
    ∀ (st : PSState) (phone sessionId f : String)
      (h : ∀ m ∈ ms, prioOf f < prioOf m ∧ prioOf m ≤ 5),
      chainInv ms → (∀ m ∈ ms, methodEnabled m = true) →
      (match ms.find? (fun x => (env.genOutcome x).isSome) with
       | some w =>
          (tryAlternatives env st phone sessionId f ms h).1.success = true ∧
          (tryAlternatives env st phone sessionId f ms h).1.fallback = true ∧
          (tryAlternatives env st phone sessionId f ms h).1.originalMethod
            = some f ∧
          (tryAlternatives env st phone sessionId f ms h).1.method = some w
       | none =>
          tryAlternatives env st phone sessionId f ms h
            = ({ success := false, error := some "ALL_METHODS_FAILED",
                 originalMethod := some f,
                 triedFallbacks := getAlternativeMethods f }, st)) := by
  induction ms with
  | nil =>
    intro st phone sessionId f h _ _
    simp only [List.find?]
    exact tryAlt_nil env st phone sessionId f h
  | cons m rest ih =>
    intro st phone sessionId f h hchain henabled
    obtain ⟨halt, hchain2⟩ := hchain
    have henm := henabled m (List.mem_cons_self m rest)
    rcases hstrat : getStrategy m with _ | strat
    · rw [methodEnabled, hstrat] at henm
      cases henm
    · have hen : strat.enabled = true := by
        rw [methodEnabled, hstrat] at henm
        exact henm
      have hrest : ∀ x ∈ rest, prioOf f < prioOf x ∧ prioOf x ≤ 5 :=
        fun x hx => h x (List.mem_cons_of_mem m hx)
      rcases hout : env.genOutcome m with _ | c
      · -- the head alternative's own generator fails
        have hfind : (m :: rest).find? (fun x => (env.genOutcome x).isSome)
            = rest.find? (fun x => (env.genOutcome x).isSome) := by
          simp [List.find?, hout]
        rw [hfind]
        have hinner0 : generatePairingCode env st phone sessionId m
            = tryAlternatives env st phone sessionId m rest
                (halt ▸ fun x hx => prioOf_alt hx) := by
          rw [gen_fail_to_chain hstrat hen hout]
          exact tryAlt_congr halt _ _
        have hinner := ih st phone sessionId m (halt ▸ fun x hx => prioOf_alt hx)
          hchain2 (fun x hx => henabled x (List.mem_cons_of_mem m hx))
        rcases hfr : rest.find? (fun x => (env.genOutcome x).isSome) with _ | w
        · -- whole tail fails too
          rw [hfr] at hinner
          have hfail : (generatePairingCode env st phone sessionId m).1.success
              = false := by
            rw [hinner0, hinner]
          have hst : (generatePairingCode env st phone sessionId m).2 = st := by
            rw [hinner0, hinner]
          rw [tryAlt_cons_fail hfail, hst]
          have houter := ih st phone sessionId f hrest hchain2
            (fun x hx => henabled x (List.mem_cons_of_mem m hx))
          rw [hfr] at houter
          exact houter
        · -- the tail succeeds at w
          rw [hfr] at hinner
          obtain ⟨hs1, _, _, hs4⟩ := hinner
          have hsucc : (generatePairingCode env st phone sessionId m).1.success
              = true := by
            rw [hinner0]
            exact hs1
          rw [tryAlt_cons_succ hsucc]
          refine ⟨hsucc, rfl, rfl, ?_⟩
          show (generatePairingCode env st phone sessionId m).1.method = some w
          rw [hinner0]
          exact hs4
      · -- the head alternative's generator succeeds
        have hfind : (m :: rest).find? (fun x => (env.genOutcome x).isSome)
            = some m := by
          simp [List.find?, hout]
        rw [hfind]
        obtain ⟨hg1, _, _, _, _⟩ := gen_success hstrat hen hout
        have hsucc : (generatePairingCode env st phone sessionId m).1.success
            = true := by
          rw [hg1]
        rw [tryAlt_cons_succ hsucc]
        refine ⟨hsucc, rfl, rfl, ?_⟩
        show (generatePairingCode env st phone sessionId m).1.method = some m
        rw [hg1]

/-- Claim C6: when generation on the preferred channel fails, the engine
chains through the strictly-lower-precedence enabled channels in priority
order; if some channel's generator succeeds, the returned successful result
carries `fallback = true`, `originalMethod` equal to the failed channel and
the first succeeding channel as `method`; if the catalog is exhausted the
terminal `ALL_METHODS_FAILED` result is returned with the state unchanged
(never a raw exception — the embedding is a total function). -/
theorem claim_C6 (env : GenEnv) (st : PSState) (phone sessionId method : String)
    (hmethod : method ∈ ["code", "sms", "call", "email", "backup"])
    (hfail : env.genOutcome method = none) :
    match (getAlternativeMethods method).find?
        (fun x => (env.genOutcome x).isSome) with
    | some w =>
        (generatePairingCode env st phone sessionId method).1.success = true ∧
        (generatePairingCode env st phone sessionId method).1.fallback = true ∧
        (generatePairingCode env st phone sessionId method).1.originalMethod
          = some method ∧
        (generatePairingCode env st phone sessionId method).1.method = some w
    | none =>
        generatePairingCode env st phone sessionId method
          = ({ success := false, error := some "ALL_METHODS_FAILED",
               originalMethod := some method,
               triedFallbacks := getAlternativeMethods method }, st) := by
  fin_cases hmethod
  · have h2 : ∀ m ∈ ["sms", "call", "email", "backup"],
        prioOf "code" < prioOf m ∧ prioOf m ≤ 5 := by decide
    have hspec := tryAlternatives_spec env ["sms", "call", "email", "backup"]
      st phone sessionId "code" h2 (by decide) (by decide)
    rw [alt_code, gen_fail_to_chain gs_code rfl hfail, tryAlt_congr alt_code _ h2]
    exact hspec
  · have h2 : ∀ m ∈ ["call", "email", "backup"],
        prioOf "sms" < prioOf m ∧ prioOf m ≤ 5 := by decide
    have hspec := tryAlternatives_spec env ["call", "email", "backup"]
      st phone sessionId "sms" h2 (by decide) (by decide)
    rw [alt_sms, gen_fail_to_chain gs_sms rfl hfail, tryAlt_congr alt_sms _ h2]
    exact hspec
  · have h2 : ∀ m ∈ ["email", "backup"],
        prioOf "call" < prioOf m ∧ prioOf m ≤ 5 := by decide
    have hspec := tryAlternatives_spec env ["email", "backup"]
      st phone sessionId "call" h2 (by decide) (by decide)
    rw [alt_call, gen_fail_to_chain gs_call rfl hfail, tryAlt_congr alt_call _ h2]
    exact hspec
  · have h2 : ∀ m ∈ ["backup"], prioOf "email" < prioOf m ∧ prioOf m ≤ 5 := by
      decide
    have hspec := tryAlternatives_spec env ["backup"]
      st phone sessionId "email" h2 (by decide) (by decide)
    rw [alt_email, gen_fail_to_chain gs_email rfl hfail,
      tryAlt_congr alt_email _ h2]
    exact hspec
  · have h2 : ∀ m ∈ ([] : List String),
        prioOf "backup" < prioOf m ∧ prioOf m ≤ 5 := by decide
    have hspec := tryAlternatives_spec env [] st phone sessionId "backup" h2
      (by decide) (by decide)
    rw [alt_backup, gen_fail_to_chain gs_backup rfl hfail,
      tryAlt_congr alt_backup _ h2]
    exact hspec

/-- Witness for C6: with the SMS provider absent and the call provider
present, a failed primary generation transparently succeeds on the `call`
channel with `fallback = true` and `originalMethod = "code"`. -/
theorem claim_C6_witness :
    (generatePairingCode demoEnvCall emptyPS "15551234567" "S1" "code").1.success
      = true ∧
    (generatePairingCode demoEnvCall emptyPS "15551234567" "S1" "code").1.fallback
      = true ∧
    (generatePairingCode demoEnvCall emptyPS "15551234567" "S1"
        "code").1.originalMethod = some "code" ∧
    (generatePairingCode demoEnvCall emptyPS "15551234567" "S1" "code").1.method
      = some "call" := by
  exact claim_C6 demoEnvCall emptyPS "15551234567" "S1" "code" (by decide)
    (by decide)

/-- Claim C10: the alternatives of a channel are exactly enabled channels of
strictly greater priority number, sorted ascending (so the failed channel
and higher-precedence channels are never retried); the last-precedence
channel `backup` has no alternatives, and a backup generation failure
immediately yields the terminal `ALL_METHODS_FAILED` result with an empty
tried-fallbacks list and an unchanged state. -/
theorem claim_C10 (currentMethod : String) :
    (∀ m ∈ getAlternativeMethods currentMethod,
        m ≠ currentMethod ∧ methodEnabled m = true ∧
        prioOf currentMethod < prioOf m) ∧
    (getAlternativeMethods currentMethod).Pairwise
      (fun a b => prioOf a ≤ prioOf b) ∧
    getAlternativeMethods "backup" = [] ∧
    (∀ (env : GenEnv) (st : PSState) (phone sessionId : String),
        env.genOutcome "backup" = none →
        generatePairingCode env st phone sessionId "backup"
          = ({ success := false, error := some "ALL_METHODS_FAILED",
               originalMethod := some "backup", triedFallbacks := [] }, st)) := by
  refine ⟨?_, ?_, alt_backup, ?_⟩
  · intro m hm
    have hprio := (prioOf_alt hm).1
    rcases List.mem_map.mp hm with ⟨p, hp, rfl⟩
    have hp' := mem_sortByKey.mp hp
    have hmem := List.mem_of_mem_filter hp'
    have hpred := List.of_mem_filter hp'
    simp only [Bool.and_eq_true, bne_iff_ne, ne_eq, decide_eq_true_eq] at hpred
    refine ⟨hpred.1.1, ?_, hprio⟩
    rw [methodEnabled, getStrategy_of_mem hmem]
    exact hpred.1.2
  · rw [getAlternativeMethods, List.pairwise_map]
    have hpw := @pairwise_sortByKey (String × ChannelStrategy)
      (fun p => p.2.priority)
      (strategyList.filter (fun p =>
        p.1 != currentMethod && p.2.enabled &&
          (match getStrategy currentMethod with
           | some s => decide (s.priority < p.2.priority)
           | none => false)))
    refine List.Pairwise.imp_of_mem ?_ hpw
    intro a b ha hb hab
    have hsa : getStrategy a.1 = some a.2 :=
      getStrategy_of_mem (List.mem_of_mem_filter (mem_sortByKey.mp ha))
    have hsb : getStrategy b.1 = some b.2 :=
      getStrategy_of_mem (List.mem_of_mem_filter (mem_sortByKey.mp hb))
    simp only [prioOf, hsa, hsb, Option.elim]
    exact hab
  · intro env st phone sessionId hb
    have h0 : ∀ m ∈ ([] : List String),
        prioOf "backup" < prioOf m ∧ prioOf m ≤ 5 := by decide
    rw [gen_fail_to_chain gs_backup rfl hb, tryAlt_congr alt_backup _ h0,
      tryAlt_nil, alt_backup]

/-- Witness for C10: the concrete alternatives list of the primary channel,
the empty alternatives of `backup`, and the immediate terminal failure of a
backup generation with no provider. -/
theorem claim_C10_witness :
    getAlternativeMethods "backup" = [] ∧
    generatePairingCode demoEnvNone emptyPS "15551234567" "S1" "backup"
      = ({ success := false, error := some "ALL_METHODS_FAILED",
           originalMethod := some "backup", triedFallbacks := [] }, emptyPS) :=
  ⟨(claim_C10 "code").2.2.1,
   (claim_C10 "code").2.2.2 demoEnvNone emptyPS "15551234567" "S1" rfl⟩

end FallbackEngine
